import Mathlib

/-!
Shallow embedding of `src/HomeworkAssignments/HW1-Part2-Programming/src/db/db.py`:
a small query-building and execution layer (class `DB`).

Python dictionaries are modelled as ordered association lists (`KV`), reflecting
insertion-ordered iteration with unique keys.  Python scalar values are modelled
by the inductive type `Value`.  The pymysql driver behind `execute_query` is
modelled as an oracle (`Conn`) mapping a query string and its arguments to the
row count returned by `cursor.execute` and the rows returned by
`cursor.fetchall`.
-/

namespace Db

/-- Scalar values a Python key-value map may carry (string, number, boolean,
null), mirroring the `Any` values of the `KV = Dict[str, Any]` alias. -/
inductive Value where
  | vnull : Value
  | vstr (s : String) : Value
  | vint (n : Int) : Value
  | vbool (b : Bool) : Value
deriving DecidableEq, Repr

/-- Ordered key-value mapping, modelling Python `Dict[str, Any]` with its
insertion-ordered iteration.  Keys of an actual dict are unique. -/
abbrev KV := List (String × Value)

/-- Iteration order of a dict's keys: `d.keys()`. -/
def KV.keys (kv : KV) : List String := kv.map Prod.fst

/-- Iteration order of a dict's values: `d.values()` (and `list(d.values())`). -/
def KV.vals (kv : KV) : List Value := kv.map Prod.snd

/-- Dictionary lookup `d.get(k)`: first matching key wins; a missing key gives
Python's `None`, modelled as `Value.vnull`. -/
def KV.get : KV → String → Value
  | [], _ => Value.vnull
  | (k', v) :: rest, k => if k' = k then v else KV.get rest k

/-- Python `sep.join(parts)`. -/
def pyJoin (sep : String) : List String → String
  | [] => ""
  | [x] => x
  | x :: y :: rest => x ++ sep ++ pyJoin sep (y :: rest)

/-- Python slice `s[:-n]`: all characters of `s` except the last `n`. -/
def pyDropLast (s : String) (n : Nat) : String :=
  ⟨s.data.take (s.data.length - n)⟩

/-- Result of `cursor.execute(query, args)` on the MySQL driver: the returned
affected-row count, together with the result set that a subsequent
`cursor.fetchall()` yields.  A row is a column-name-to-value mapping. -/
structure CursorResult where
  count : Nat
  rows : List KV
deriving DecidableEq, Repr

/-- Connection state of a `DB` object: the external pymysql driver is an
oracle from (query string, argument list) to the cursor's execution result. -/
structure Conn where
  run : String → List Value → CursorResult

/-- Embedding of `DB.execute_query`: runs the query through a cursor; if
`ret_result` is true it returns the fetched rows, else the affected count. -/
def execute_query (self : Conn) (query : String) (args : List Value)
    (ret_result : Bool) : Sum (List KV) Nat :=
  let cur := self.run query args
  if ret_result then Sum.inl cur.rows else Sum.inr cur.count

/-- Embedding of `DB.build_select_query`.  The Python loop
`for k in filters.keys(): v = filters.get(k); val_ls.append(v); q = q + k + " = %s AND "`
is a left fold over the key iteration order, and `q[:-5]` is `pyDropLast q 5`. -/
def build_select_query (table : String) (filters : KV) : String × List Value :=
  let q := "SELECT * FROM " ++ table
  let val_ls : List Value := []
  if filters.isEmpty then
    (q, val_ls)
  else
    let st := (KV.keys filters).foldl
      (fun (st : String × List Value) k =>
        let v := KV.get filters k
        (st.1 ++ k ++ " = %s AND ", st.2 ++ [v]))
      (q ++ " WHERE ", val_ls)
    (pyDropLast st.1 5, st.2)

/-- Embedding of `DB.build_insert_query`. -/
def build_insert_query (table : String) (values : KV) : String × List Value :=
  let q := "INSERT INTO " ++ table ++ " "
  let k := "(" ++ pyJoin ", " (KV.keys values) ++ ")"
  let val_ls := KV.vals values
  let v := "(" ++ pyJoin ", " ((KV.keys values).map (fun _ => "%s")) ++ ")"
  (q ++ k ++ " VALUES " ++ v, val_ls)

/-- Embedding of `DB.build_update_query`. -/
def build_update_query (table : String) (values : KV) (filters : KV) :
    String × List Value :=
  let q := "UPDATE " ++ table ++ " SET " ++
    pyJoin ", " ((KV.keys values).map (fun key => key ++ " = %s"))
  let val_ls := KV.vals values
  if filters.isEmpty then
    (q, val_ls)
  else
    (q ++ " WHERE " ++ pyJoin " AND " ((KV.keys filters).map (fun key => key ++ " = %s")),
     val_ls ++ KV.vals filters)

/-- Embedding of `DB.build_delete_query`. -/
def build_delete_query (table : String) (filters : KV) : String × List Value :=
  let q := "DELETE FROM " ++ table
  let val_ls : List Value := []
  if filters.isEmpty then
    (q, val_ls)
  else
    (q ++ " WHERE " ++ pyJoin " AND " ((KV.keys filters).map (fun key => key ++ " = %s")),
     KV.vals filters)

/-- Embedding of `DB.select`: builds and executes, requesting rows. -/
def select (self : Conn) (table : String) (filters : KV) : Sum (List KV) Nat :=
  let r := build_select_query table filters
  execute_query self r.1 r.2 true

/-- Embedding of `DB.insert`: builds and executes, requesting the count. -/
def insert (self : Conn) (table : String) (values : KV) : Sum (List KV) Nat :=
  let r := build_insert_query table values
  execute_query self r.1 r.2 false

/-- Embedding of `DB.update`: builds and executes, requesting the count. -/
def update (self : Conn) (table : String) (values : KV) (filters : KV) :
    Sum (List KV) Nat :=
  let r := build_update_query table values filters
  execute_query self r.1 r.2 false

/-- Embedding of `DB.delete`: builds and executes, requesting the count. -/
def delete (self : Conn) (table : String) (filters : KV) : Sum (List KV) Nat :=
  let r := build_delete_query table filters
  execute_query self r.1 r.2 false

/-- Number of non-overlapping occurrences of the two-character placeholder
`%s` in a character list, mirroring Python `s.count("%s")`. -/
def countPS : List Char → Nat
  | a :: b :: rest2 =>
    if a = '%' ∧ b = 's' then countPS rest2 + 1 else countPS (b :: rest2)
  | _ => 0

/-- Number of `%s` placeholder occurrences in a query string. -/
def countPH (s : String) : Nat := countPS s.data

/-! ### Iteration-order lemmas for `KV` -/

/-- Looking up every key of a duplicate-free association list, in iteration
order, recovers exactly the list of its values, as it does on a Python dict. -/
lemma KV.map_get_keys (kv : KV) (h : (KV.keys kv).Nodup) :
    (KV.keys kv).map (KV.get kv) = KV.vals kv := by
  induction kv with
  | nil => rfl
  | cons p rest ih =>
    obtain ⟨k, v⟩ := p
    simp only [KV.keys, List.map_cons] at h
    obtain ⟨hk, hrest⟩ := List.nodup_cons.mp h
    simp only [KV.keys, KV.vals, List.map_cons]
    refine congrArg₂ (· :: ·) (by simp [KV.get]) ?_
    have hsame : ∀ k' ∈ KV.keys rest, KV.get ((k, v) :: rest) k' = KV.get rest k' := by
      intro k' hk'
      have hne : k ≠ k' := fun he => hk (he ▸ hk')
      simp [KV.get, hne]
    rw [show (rest.map Prod.fst) = KV.keys rest from rfl, List.map_congr_left hsame, ih hrest]
    rfl

/-! ### Closed form of the `build_select_query` loop -/

/-- String accumulated by the select loop: one `<key> = %s AND ` chunk per key. -/
def selChain : List String → String
  | [] => ""
  | k :: rest => k ++ " = %s AND " ++ selChain rest

/-- Unrolling of the Python `for k in filters.keys()` accumulation loop. -/
lemma select_foldl (F : KV) (ks : List String) : ∀ (q : String) (l : List Value),
    ks.foldl (fun (st : String × List Value) k =>
        (st.1 ++ k ++ " = %s AND ", st.2 ++ [KV.get F k])) (q, l)
      = (q ++ selChain ks, l ++ ks.map (KV.get F)) := by
  induction ks with
  | nil => intro q l; simp [selChain]
  | cons k rest ih =>
    intro q l
    simp only [List.foldl_cons, List.map_cons, selChain]
    rw [ih]
    simp [String.append_assoc, List.append_assoc]

/-- The loop string for a non-empty key list is the ` AND `-join of the
`<key> = %s` terms followed by one trailing ` AND `. -/
lemma selChain_cons_eq (ks : List String) : ∀ (k : String),
    selChain (k :: ks) = pyJoin " AND " ((k :: ks).map (fun x => x ++ " = %s")) ++ " AND " := by
  induction ks with
  | nil =>
    intro k
    show (k ++ " = %s AND ") ++ "" = (k ++ " = %s") ++ " AND "
    rw [String.append_empty, show (" = %s AND " : String) = " = %s" ++ " AND " from rfl,
      String.append_assoc]
  | cons k2 rest ih =>
    intro k
    show (k ++ " = %s AND ") ++ selChain (k2 :: rest) = _
    rw [ih k2, show (" = %s AND " : String) = " = %s" ++ " AND " from rfl]
    simp only [List.map_cons, pyJoin]
    simp [String.append_assoc]

/-- Python slicing `(s + t)[:-len(t)]` recovers `s`. -/
lemma pyDropLast_append (s t : String) : pyDropLast (s ++ t) t.data.length = s := by
  apply String.ext
  show (s ++ t).data.take ((s ++ t).data.length - t.data.length) = s.data
  rw [String.data_append, List.length_append, Nat.add_sub_cancel, List.take_left]

/-- Python slicing `q[:-5]` strips exactly one trailing ` AND `. -/
lemma pyDropLast_and (s : String) : pyDropLast (s ++ " AND ") 5 = s :=
  pyDropLast_append s " AND "

/-- Closed form of `build_select_query` on a non-empty filter map. -/
lemma build_select_query_eq (T : String) (F : KV) (h : F ≠ []) :
    build_select_query T F =
      ("SELECT * FROM " ++ T ++ " WHERE " ++
         pyJoin " AND " ((KV.keys F).map (fun k => k ++ " = %s")),
       (KV.keys F).map (KV.get F)) := by
  cases F with
  | nil => exact absurd rfl h
  | cons p rest =>
    simp only [build_select_query, List.isEmpty_cons, Bool.false_eq_true, if_false]
    rw [show KV.keys (p :: rest) = p.1 :: KV.keys rest from rfl, select_foldl,
      selChain_cons_eq, ← String.append_assoc, pyDropLast_and]
    simp [String.append_assoc]

/-! ### Counting `%s` placeholders -/

/-- Occurrence counting distributes over append when no `%s` can straddle the
boundary: either the right part does not start with `s`, or the left part does
not end with `%`. -/
lemma countPS_append (xs : List Char) : ∀ (ys : List Char),
    (ys.head? ≠ some 's' ∨ xs.getLast? ≠ some '%') →
    countPS (xs ++ ys) = countPS xs + countPS ys := by
  induction xs using countPS.induct with
  | case1 a b r hab ih =>
    intro ys hb
    obtain ⟨ha, hbb⟩ := hab
    subst ha hbb
    have hr : ys.head? ≠ some 's' ∨ r.getLast? ≠ some '%' := by
      rcases hb with h | h
      · exact Or.inl h
      · cases r with
        | nil => exact Or.inr (by simp)
        | cons c r' =>
          rw [List.getLast?_cons_cons, List.getLast?_cons_cons] at h
          exact Or.inr h
    have h1 : countPS (('%' :: 's' :: r) ++ ys) = countPS (r ++ ys) + 1 := by
      simp [countPS]
    have h2 : countPS ('%' :: 's' :: r) = countPS r + 1 := by
      simp [countPS]
    rw [h1, h2, ih ys hr]
    omega
  | case2 a b r hab ih =>
    intro ys hb
    have hr : ys.head? ≠ some 's' ∨ (b :: r).getLast? ≠ some '%' := by
      rcases hb with h | h
      · exact Or.inl h
      · rw [List.getLast?_cons_cons] at h
        exact Or.inr h
    have h1 : countPS ((a :: b :: r) ++ ys) = countPS ((b :: r) ++ ys) := by
      simp only [List.cons_append, countPS, if_neg hab]
      rfl
    have h2 : countPS (a :: b :: r) = countPS (b :: r) := by
      simp only [countPS, if_neg hab]
    rw [h1, ih ys hr, h2]
  | case3 t ht =>
    intro ys hb
    cases t with
    | nil => simp [countPS]
    | cons a t' =>
      cases t' with
      | cons b r => exact absurd rfl (ht a b r)
      | nil =>
        cases ys with
        | nil => simp [countPS]
        | cons c r =>
          have hcs : ¬(a = '%' ∧ c = 's') := by
            rintro ⟨h1, h2⟩
            rcases hb with h | h
            · exact h (by simp [h2])
            · exact h (by simp [h1])
          show countPS (a :: c :: r) = countPS [a] + countPS (c :: r)
          simp only [countPS, if_neg hcs]
          exact (Nat.zero_add _).symm

/-- String-level form of `countPS_append`. -/
lemma countPH_append (s t : String)
    (hb : t.data.head? ≠ some 's' ∨ s.data.getLast? ≠ some '%') :
    countPH (s ++ t) = countPH s + countPH t := by
  simpa [countPH, String.data_append] using countPS_append s.data t.data hb

/-- Appending a string whose last character is `c` makes `c` the last
character of the result. -/
lemma getLast_append_lit (s t : String) (c : Char) (h : t.data.getLast? = some c) :
    (s ++ t).data.getLast? = some c := by
  rw [String.data_append, List.getLast?_append, h]
  rfl

/-- Placeholder count of a Python join: the sum of the counts of the joined
parts, provided the separator is placeholder-free and cannot complete a
placeholder across either of its boundaries. -/
lemma countPH_pyJoin_sum (sep : String) (h0 : countPH sep = 0)
    (hh : ∃ c, sep.data.head? = some c ∧ c ≠ 's')
    (hl : ∃ c, sep.data.getLast? = some c ∧ c ≠ '%') :
    ∀ ts : List String, countPH (pyJoin sep ts) = (ts.map countPH).sum := by
  intro ts
  induction ts with
  | nil => simp [pyJoin, countPH, countPS]
  | cons x ts' ih =>
    cases ts' with
    | nil => simp [pyJoin]
    | cons y rest =>
      obtain ⟨ch, hch, hchs⟩ := hh
      obtain ⟨cl, hcl, hclp⟩ := hl
      have e1 : countPH ((x ++ sep) ++ pyJoin sep (y :: rest))
          = countPH (x ++ sep) + countPH (pyJoin sep (y :: rest)) := by
        refine countPH_append _ _ (Or.inr ?_)
        rw [getLast_append_lit x sep cl hcl]
        simp [hclp]
      have e2 : countPH (x ++ sep) = countPH x + countPH sep := by
        refine countPH_append _ _ (Or.inl ?_)
        rw [hch]
        simp [hchs]
      show countPH ((x ++ sep) ++ pyJoin sep (y :: rest)) = _
      rw [e1, e2, h0, ih]
      simp

/-- Each `<key> = %s` term contributes exactly one placeholder when the key
itself is placeholder-free. -/
lemma countPH_term (k : String) (hk : countPH k = 0) : countPH (k ++ " = %s") = 1 := by
  rw [countPH_append k " = %s" (Or.inl (by decide)), hk]
  rfl

/-- Total placeholder count of the `<key> = %s` term list. -/
lemma map_countPH_terms (ks : List String) (h : ∀ k ∈ ks, countPH k = 0) :
    ((ks.map (fun k => k ++ " = %s")).map countPH).sum = ks.length := by
  induction ks with
  | nil => rfl
  | cons k rest ih =>
    simp only [List.map_cons, List.sum_cons, List.length_cons]
    rw [countPH_term k (h k (List.mem_cons_self k rest)),
      ih (fun x hx => h x (List.mem_cons_of_mem k hx))]
    omega

/-- Total placeholder count of the `%s` list used by `build_insert_query`. -/
lemma map_countPH_ps (ks : List String) :
    ((ks.map (fun _ => "%s")).map countPH).sum = ks.length := by
  induction ks with
  | nil => rfl
  | cons k rest ih =>
    simp only [List.map_cons, List.sum_cons, List.length_cons]
    rw [ih]
    have h1 : countPH "%s" = 1 := rfl
    omega

/-- A `, `-join of placeholder-free keys is placeholder-free. -/
lemma countPH_join_keys (ks : List String) (h : ∀ k ∈ ks, countPH k = 0) :
    countPH (pyJoin ", " ks) = 0 := by
  rw [countPH_pyJoin_sum ", " (by decide) ⟨',', by decide⟩ ⟨' ', by decide⟩ ks]
  exact List.sum_eq_zero (by
    intro x hx
    obtain ⟨k, hk, rfl⟩ := List.mem_map.mp hx
    exact h k hk)

/-- Placeholder count of the ` AND `-joined `<key> = %s` clause. -/
lemma countPH_where_clause (ks : List String) (h : ∀ k ∈ ks, countPH k = 0) :
    countPH (pyJoin " AND " ((ks.map (fun k => k ++ " = %s")))) = ks.length := by
  rw [countPH_pyJoin_sum " AND " (by decide) ⟨' ', by decide⟩ ⟨' ', by decide⟩,
    map_countPH_terms ks h]

/-- Placeholder count of the `, `-joined `<key> = %s` clause of an UPDATE. -/
lemma countPH_set_clause (ks : List String) (h : ∀ k ∈ ks, countPH k = 0) :
    countPH (pyJoin ", " ((ks.map (fun k => k ++ " = %s")))) = ks.length := by
  rw [countPH_pyJoin_sum ", " (by decide) ⟨',', by decide⟩ ⟨' ', by decide⟩,
    map_countPH_terms ks h]

/-! ### Closed forms of the remaining builders -/

/-- Closed form of `build_insert_query` with the literal chunks merged. -/
lemma build_insert_query_eq (T : String) (V : KV) :
    build_insert_query T V =
      ("INSERT INTO " ++ T ++ " (" ++ pyJoin ", " (KV.keys V) ++ ") VALUES (" ++
         pyJoin ", " ((KV.keys V).map (fun _ => "%s")) ++ ")",
       KV.vals V) := by
  simp only [build_insert_query]
  rw [show (" (" : String) = " " ++ "(" from rfl,
    show (") VALUES (" : String) = ")" ++ " VALUES " ++ "(" from rfl]
  simp only [String.append_assoc]

/-- Closed form of `build_update_query`. -/
lemma build_update_query_eq (T : String) (V F : KV) :
    build_update_query T V F =
      ("UPDATE " ++ T ++ " SET " ++ pyJoin ", " ((KV.keys V).map (fun k => k ++ " = %s")) ++
         (if F.isEmpty then "" else
           " WHERE " ++ pyJoin " AND " ((KV.keys F).map (fun k => k ++ " = %s"))),
       KV.vals V ++ KV.vals F) := by
  cases F with
  | nil =>
    simp [build_update_query, KV.vals, String.append_empty]
  | cons p rest =>
    simp [build_update_query, String.append_assoc]

/-- On an empty filter map, `build_select_query` takes the no-WHERE branch. -/
lemma build_select_query_nil (T : String) :
    build_select_query T [] = ("SELECT * FROM " ++ T, []) := rfl

/-- On an empty filter map, `build_delete_query` takes the no-WHERE branch. -/
lemma build_delete_query_nil (T : String) :
    build_delete_query T [] = ("DELETE FROM " ++ T, []) := rfl

/-- On a non-empty filter map, `build_delete_query` appends the WHERE clause. -/
lemma build_delete_query_cons (T : String) (p : String × Value) (rest : KV) :
    build_delete_query T (p :: rest) =
      ("DELETE FROM " ++ T ++ " WHERE " ++
         pyJoin " AND " ((KV.keys (p :: rest)).map (fun key => key ++ " = %s")),
       KV.vals (p :: rest)) := rfl

/-- On an empty filter map, `build_update_query` emits no WHERE clause. -/
lemma build_update_query_nil (T : String) (V : KV) :
    build_update_query T V [] =
      ("UPDATE " ++ T ++ " SET " ++
         pyJoin ", " ((KV.keys V).map (fun key => key ++ " = %s")),
       KV.vals V) := rfl

/-- Prepending to a string whose first character is `c` keeps `c` first. -/
lemma head_append_lit (s t : String) (c : Char) (h : s.data.head? = some c) :
    (s ++ t).data.head? = some c := by
  rw [String.data_append,
    List.head?_append_of_ne_nil _ (fun hnil => by rw [hnil] at h; exact Option.noConfusion h), h]

/-- Placeholder count of a built SELECT query equals its argument count,
provided the table and the filter keys are placeholder-free. -/
lemma countPH_select (T : String) (F : KV) (hT : countPH T = 0)
    (hF : ∀ k ∈ KV.keys F, countPH k = 0) :
    countPH (build_select_query T F).1 = (build_select_query T F).2.length := by
  cases F with
  | nil =>
    rw [build_select_query_nil]
    show countPH ("SELECT * FROM " ++ T) = 0
    rw [countPH_append _ _ (Or.inr (by decide)), hT]
    rfl
  | cons p rest =>
    rw [build_select_query_eq T (p :: rest) (by simp)]
    show countPH ((("SELECT * FROM " ++ T) ++ " WHERE ") ++
        pyJoin " AND " ((KV.keys (p :: rest)).map (fun k => k ++ " = %s"))) = _
    rw [countPH_append _ _ (Or.inr (by
        rw [getLast_append_lit _ " WHERE " ' ' (by decide)]; decide)),
      countPH_append _ _ (Or.inl (by decide)),
      countPH_append _ _ (Or.inr (by decide)),
      countPH_where_clause _ hF, hT]
    have c1 : countPH "SELECT * FROM " = 0 := by decide
    have c2 : countPH " WHERE " = 0 := by decide
    simp only [List.length_map]
    omega

/-- Placeholder count of a built INSERT query equals its argument count,
provided the table and the value keys are placeholder-free. -/
lemma countPH_insert (T : String) (V : KV) (hT : countPH T = 0)
    (hV : ∀ k ∈ KV.keys V, countPH k = 0) :
    countPH (build_insert_query T V).1 = (build_insert_query T V).2.length := by
  rw [build_insert_query_eq]
  show countPH ((((((("INSERT INTO " ++ T) ++ " (") ++ pyJoin ", " (KV.keys V)) ++
      ") VALUES (") ++ pyJoin ", " ((KV.keys V).map (fun _ => "%s"))) ++ ")")) = _
  rw [countPH_append _ _ (Or.inl (by decide)),
    countPH_append _ _ (Or.inr (by
      rw [getLast_append_lit _ ") VALUES (" '(' (by decide)]; decide)),
    countPH_append _ _ (Or.inl (by decide)),
    countPH_append _ _ (Or.inr (by
      rw [getLast_append_lit _ " (" '(' (by decide)]; decide)),
    countPH_append _ _ (Or.inl (by decide)),
    countPH_append _ _ (Or.inr (by decide)),
    hT, countPH_join_keys _ hV,
    countPH_pyJoin_sum ", " (by decide) ⟨',', by decide⟩ ⟨' ', by decide⟩,
    map_countPH_ps]
  have c1 : countPH "INSERT INTO " = 0 := by decide
  have c2 : countPH " (" = 0 := by decide
  have c3 : countPH ") VALUES (" = 0 := by decide
  have c4 : countPH ")" = 0 := by decide
  simp only [KV.keys, KV.vals, List.length_map]
  omega

/-- Placeholder count of a built UPDATE query equals its argument count,
provided the table and all keys are placeholder-free. -/
lemma countPH_update (T : String) (V F : KV) (hT : countPH T = 0)
    (hV : ∀ k ∈ KV.keys V, countPH k = 0) (hF : ∀ k ∈ KV.keys F, countPH k = 0) :
    countPH (build_update_query T V F).1 = (build_update_query T V F).2.length := by
  have hq : countPH ((("UPDATE " ++ T) ++ " SET ") ++
      pyJoin ", " ((KV.keys V).map (fun key => key ++ " = %s"))) = (KV.keys V).length := by
    rw [countPH_append _ _ (Or.inr (by
        rw [getLast_append_lit _ " SET " ' ' (by decide)]; decide)),
      countPH_append _ _ (Or.inl (by decide)),
      countPH_append _ _ (Or.inr (by decide)),
      hT, countPH_set_clause _ hV]
    have c1 : countPH "UPDATE " = 0 := by decide
    have c2 : countPH " SET " = 0 := by decide
    omega
  cases F with
  | nil =>
    rw [build_update_query_nil]
    show countPH ((("UPDATE " ++ T) ++ " SET ") ++
        pyJoin ", " ((KV.keys V).map (fun key => key ++ " = %s"))) = (KV.vals V).length
    rw [hq]
    simp [KV.keys, KV.vals]
  | cons p rest =>
    have hne : ((p :: rest : KV)).isEmpty = false := rfl
    rw [build_update_query_eq, hne]
    have e1 : countPH (((("UPDATE " ++ T) ++ " SET ") ++
          pyJoin ", " ((KV.keys V).map (fun k => k ++ " = %s"))) ++
          (" WHERE " ++ pyJoin " AND " ((KV.keys (p :: rest)).map (fun k => k ++ " = %s"))))
        = countPH ((("UPDATE " ++ T) ++ " SET ") ++
            pyJoin ", " ((KV.keys V).map (fun k => k ++ " = %s"))) +
          countPH (" WHERE " ++
            pyJoin " AND " ((KV.keys (p :: rest)).map (fun k => k ++ " = %s"))) :=
      countPH_append _ _ (Or.inl (by
        rw [head_append_lit " WHERE " _ ' ' (by decide)]; decide))
    have e2 : countPH (" WHERE " ++
          pyJoin " AND " ((KV.keys (p :: rest)).map (fun k => k ++ " = %s")))
        = countPH " WHERE " +
          countPH (pyJoin " AND " ((KV.keys (p :: rest)).map (fun k => k ++ " = %s"))) :=
      countPH_append _ _ (Or.inr (by decide))
    show countPH (((("UPDATE " ++ T) ++ " SET ") ++
        pyJoin ", " ((KV.keys V).map (fun k => k ++ " = %s"))) ++
        (" WHERE " ++ pyJoin " AND " ((KV.keys (p :: rest)).map (fun k => k ++ " = %s")))) = _
    rw [e1, e2, hq, countPH_where_clause _ hF]
    have c1 : countPH " WHERE " = 0 := by decide
    simp only [KV.keys, KV.vals, List.length_append, List.length_map]
    omega

/-- Placeholder count of a built DELETE query equals its argument count,
provided the table and the filter keys are placeholder-free. -/
lemma countPH_delete (T : String) (F : KV) (hT : countPH T = 0)
    (hF : ∀ k ∈ KV.keys F, countPH k = 0) :
    countPH (build_delete_query T F).1 = (build_delete_query T F).2.length := by
  cases F with
  | nil =>
    rw [build_delete_query_nil]
    show countPH ("DELETE FROM " ++ T) = 0
    rw [countPH_append _ _ (Or.inr (by decide)), hT]
    rfl
  | cons p rest =>
    rw [build_delete_query_cons]
    show countPH ((("DELETE FROM " ++ T) ++ " WHERE ") ++
        pyJoin " AND " ((KV.keys (p :: rest)).map (fun key => key ++ " = %s"))) = _
    rw [countPH_append _ _ (Or.inr (by
        rw [getLast_append_lit _ " WHERE " ' ' (by decide)]; decide)),
      countPH_append _ _ (Or.inl (by decide)),
      countPH_append _ _ (Or.inr (by decide)),
      countPH_where_clause _ hF, hT]
    have c1 : countPH "DELETE FROM " = 0 := by decide
    have c2 : countPH " WHERE " = 0 := by decide
    simp only [KV.keys, KV.vals, List.length_map]
    omega

/-! ### Claim theorems -/

/-- Claim C1, counterexample: the placeholder/argument round-trip fails as
universally stated, because a table name may itself contain `%s`.  At table
`"%s"` and an empty filter map the built SELECT string contains one `%s`
occurrence while the argument list is empty. -/
theorem placeholder_count_claim_cex :
    countPH (build_select_query "%s" []).1 ≠ (build_select_query "%s" []).2.length := by
  decide

/-- Claim C1 (amended): for every Query returned by the four build functions,
if neither the table name nor any key of the value/filter maps contains an
occurrence of `%s`, then the number of `%s` occurrences in the returned query
string equals the length of the returned argument list. -/
theorem placeholder_count_matches_args (T : String) (V F : KV)
    (hT : countPH T = 0)
    (hV : ∀ k ∈ KV.keys V, countPH k = 0)
    (hF : ∀ k ∈ KV.keys F, countPH k = 0) :
    countPH (build_select_query T F).1 = (build_select_query T F).2.length ∧
    countPH (build_insert_query T V).1 = (build_insert_query T V).2.length ∧
    countPH (build_update_query T V F).1 = (build_update_query T V F).2.length ∧
    countPH (build_delete_query T F).1 = (build_delete_query T F).2.length :=
  ⟨countPH_select T F hT hF, countPH_insert T V hT hV,
   countPH_update T V F hT hV hF, countPH_delete T F hT hF⟩

/-- Witness for the amended C1 theorem at concrete inputs. -/
theorem placeholder_count_matches_args_witness :
    (countPH "tbl" = 0 ∧
     (∀ k ∈ KV.keys [("a", Value.vint 1)], countPH k = 0) ∧
     (∀ k ∈ KV.keys [("b", Value.vint 2)], countPH k = 0)) ∧
    (countPH (build_select_query "tbl" [("b", Value.vint 2)]).1 =
        (build_select_query "tbl" [("b", Value.vint 2)]).2.length ∧
     countPH (build_insert_query "tbl" [("a", Value.vint 1)]).1 =
        (build_insert_query "tbl" [("a", Value.vint 1)]).2.length ∧
     countPH (build_update_query "tbl" [("a", Value.vint 1)] [("b", Value.vint 2)]).1 =
        (build_update_query "tbl" [("a", Value.vint 1)] [("b", Value.vint 2)]).2.length ∧
     countPH (build_delete_query "tbl" [("b", Value.vint 2)]).1 =
        (build_delete_query "tbl" [("b", Value.vint 2)]).2.length) :=
  ⟨⟨by decide, by decide, by decide⟩,
   placeholder_count_matches_args "tbl" [("a", Value.vint 1)] [("b", Value.vint 2)]
     (by decide) (by decide) (by decide)⟩

/-- Claim C2, counterexample: the clause "exactly `len(F)` placeholder
occurrences" fails as universally stated, because a filter key may itself
contain `%s`: with one filter key `a%s` the built string holds two `%s`
occurrences. -/
theorem select_count_claim_cex :
    countPH (build_select_query "T" [("a%s", Value.vint 1)]).1 ≠
      ([("a%s", Value.vint 1)] : KV).length := by
  decide

/-- Claim C2 (amended): for every table `T` and non-empty filter map `F` (with
the unique keys of a Python dict), `build_select_query T F` returns
`SELECT * FROM T WHERE k1 = %s AND k2 = %s ...` with one `k = %s` term per
filter key in iteration order joined by ` AND ` (no trailing `AND`), and an
argument list of length `len(F)` holding the filter values in the same key
order; the string has exactly `len(F)` placeholder occurrences whenever
neither `T` nor any filter key contains `%s`. -/
theorem select_nonempty_spec (T : String) (F : KV) (hne : F ≠ [])
    (hnd : (KV.keys F).Nodup) :
    build_select_query T F =
      ("SELECT * FROM " ++ T ++ " WHERE " ++
         pyJoin " AND " ((KV.keys F).map (fun k => k ++ " = %s")),
       KV.vals F) ∧
    (build_select_query T F).2.length = F.length ∧
    (countPH T = 0 → (∀ k ∈ KV.keys F, countPH k = 0) →
      countPH (build_select_query T F).1 = F.length) := by
  have h := build_select_query_eq T F hne
  rw [KV.map_get_keys F hnd] at h
  have hlen : (build_select_query T F).2.length = F.length := by
    rw [h]; simp [KV.vals]
  refine ⟨h, hlen, fun hT hF => ?_⟩
  rw [countPH_select T F hT hF, hlen]

/-- Witness for the C2 theorem at a concrete input. -/
theorem select_nonempty_spec_witness :
    (([("a", Value.vint 1)] : KV) ≠ [] ∧ (KV.keys [("a", Value.vint 1)]).Nodup) ∧
    (build_select_query "T" [("a", Value.vint 1)] =
       ("SELECT * FROM " ++ "T" ++ " WHERE " ++
          pyJoin " AND " ((KV.keys [("a", Value.vint 1)]).map (fun k => k ++ " = %s")),
        KV.vals [("a", Value.vint 1)]) ∧
     (build_select_query "T" [("a", Value.vint 1)]).2.length =
       ([("a", Value.vint 1)] : KV).length ∧
     (countPH "T" = 0 → (∀ k ∈ KV.keys [("a", Value.vint 1)], countPH k = 0) →
       countPH (build_select_query "T" [("a", Value.vint 1)]).1 =
         ([("a", Value.vint 1)] : KV).length)) :=
  ⟨⟨by decide, by decide⟩,
   select_nonempty_spec "T" [("a", Value.vint 1)] (by decide) (by decide)⟩

/-- Claim C3: `build_update_query` always emits `UPDATE <table> SET k1 = %s,
k2 = %s ...` over the value keys in iteration order, appends ` WHERE f1 = %s
AND f2 = %s ...` exactly when the filter map is non-empty, and returns the
value arguments followed by the filter arguments (just the value arguments,
with no WHERE clause and no trailing keyword, when filters are empty). -/
theorem update_spec (T : String) (V F : KV) (_hne : V ≠ []) :
    build_update_query T V F =
      ("UPDATE " ++ T ++ " SET " ++
         pyJoin ", " ((KV.keys V).map (fun k => k ++ " = %s")) ++
         (if F.isEmpty then "" else
           " WHERE " ++ pyJoin " AND " ((KV.keys F).map (fun k => k ++ " = %s"))),
       KV.vals V ++ KV.vals F) :=
  build_update_query_eq T V F

/-- Witness for the C3 theorem at a concrete input. -/
theorem update_spec_witness :
    (([("a", Value.vint 1)] : KV) ≠ []) ∧
    build_update_query "T" [("a", Value.vint 1)] [("b", Value.vint 2)] =
      ("UPDATE " ++ "T" ++ " SET " ++
         pyJoin ", " ((KV.keys [("a", Value.vint 1)]).map (fun k => k ++ " = %s")) ++
         (if ([("b", Value.vint 2)] : KV).isEmpty then "" else
           " WHERE " ++
             pyJoin " AND " ((KV.keys [("b", Value.vint 2)]).map (fun k => k ++ " = %s"))),
       KV.vals [("a", Value.vint 1)] ++ KV.vals [("b", Value.vint 2)]) :=
  ⟨by decide,
   update_spec "T" [("a", Value.vint 1)] [("b", Value.vint 2)] (by decide)⟩

/-- Claim C4: `build_insert_query` returns `INSERT INTO <table> (k1, k2, ...)
VALUES (%s, %s, ...)` with the column list and the placeholder list in the
value map's key iteration order and of equal length, and the argument list
holding the values in that order. -/
theorem insert_spec (T : String) (V : KV) (_hne : V ≠ []) :
    build_insert_query T V =
      ("INSERT INTO " ++ T ++ " (" ++ pyJoin ", " (KV.keys V) ++ ") VALUES (" ++
         pyJoin ", " ((KV.keys V).map (fun _ => "%s")) ++ ")",
       KV.vals V) ∧
    ((KV.keys V).map (fun _ => "%s")).length = (KV.keys V).length ∧
    (build_insert_query T V).2.length = V.length := by
  refine ⟨build_insert_query_eq T V, by simp, ?_⟩
  rw [build_insert_query_eq]
  simp [KV.vals]

/-- Witness for the C4 theorem at a concrete input. -/
theorem insert_spec_witness :
    (([("a", Value.vint 1), ("b", Value.vint 2)] : KV) ≠ []) ∧
    (build_insert_query "T" [("a", Value.vint 1), ("b", Value.vint 2)] =
       ("INSERT INTO " ++ "T" ++ " (" ++
          pyJoin ", " (KV.keys [("a", Value.vint 1), ("b", Value.vint 2)]) ++
          ") VALUES (" ++
          pyJoin ", "
            ((KV.keys [("a", Value.vint 1), ("b", Value.vint 2)]).map (fun _ => "%s")) ++ ")",
        KV.vals [("a", Value.vint 1), ("b", Value.vint 2)]) ∧
     ((KV.keys [("a", Value.vint 1), ("b", Value.vint 2)]).map (fun _ => "%s")).length =
       (KV.keys [("a", Value.vint 1), ("b", Value.vint 2)]).length ∧
     (build_insert_query "T" [("a", Value.vint 1), ("b", Value.vint 2)]).2.length =
       ([("a", Value.vint 1), ("b", Value.vint 2)] : KV).length) :=
  ⟨by decide,
   insert_spec "T" [("a", Value.vint 1), ("b", Value.vint 2)] (by decide)⟩

/-- Claim C5: `build_delete_query` on an empty filter map returns
`DELETE FROM <table>` with no WHERE clause and an empty argument list, and on
a non-empty filter map appends ` WHERE f1 = %s AND f2 = %s ...` over the
filter keys in iteration order with the filter values as arguments. -/
theorem delete_spec (T : String) (F : KV) :
    build_delete_query T F =
      if F.isEmpty then ("DELETE FROM " ++ T, ([] : List Value))
      else ("DELETE FROM " ++ T ++ " WHERE " ++
              pyJoin " AND " ((KV.keys F).map (fun k => k ++ " = %s")),
            KV.vals F) := by
  cases F with
  | nil => rfl
  | cons p rest => rfl

/-- Claim C6: `build_select_query` on an empty filter map returns exactly
`SELECT * FROM <table>` with no WHERE clause and an empty argument list. -/
theorem select_empty_spec (T : String) :
    build_select_query T [] = ("SELECT * FROM " ++ T, []) := rfl

/-- Claim C7: the four build functions are deterministic and stateless — they
are pure functions of the table and map inputs alone (they take no connection
state), so two calls with identical inputs return identical (string, argument
list) pairs. -/
theorem builders_deterministic (T T' : String) (V V' F F' : KV)
    (hT : T = T') (hV : V = V') (hF : F = F') :
    build_select_query T F = build_select_query T' F' ∧
    build_insert_query T V = build_insert_query T' V' ∧
    build_update_query T V F = build_update_query T' V' F' ∧
    build_delete_query T F = build_delete_query T' F' := by
  subst hT; subst hV; subst hF
  exact ⟨rfl, rfl, rfl, rfl⟩

/-- Witness for the C7 theorem at concrete inputs. -/
theorem builders_deterministic_witness :
    ("t" = "t" ∧ ([("a", Value.vint 1)] : KV) = [("a", Value.vint 1)] ∧
      ([] : KV) = []) ∧
    (build_select_query "t" [] = build_select_query "t" [] ∧
     build_insert_query "t" [("a", Value.vint 1)] =
       build_insert_query "t" [("a", Value.vint 1)] ∧
     build_update_query "t" [("a", Value.vint 1)] [] =
       build_update_query "t" [("a", Value.vint 1)] [] ∧
     build_delete_query "t" [] = build_delete_query "t" []) :=
  ⟨⟨rfl, rfl, rfl⟩,
   builders_deterministic "t" "t" [("a", Value.vint 1)] [("a", Value.vint 1)] [] []
     rfl rfl rfl⟩

/-- Claim C8: `execute_query` returns the fetched rows when `ret_result` is
true and the affected-row count returned by `cursor.execute` when it is
false. -/
theorem execute_query_mode (db : Conn) (q : String) (args : List Value) :
    execute_query db q args true = Sum.inl (db.run q args).rows ∧
    execute_query db q args false = Sum.inr (db.run q args).count :=
  ⟨rfl, rfl⟩

/-- Claim C9: the builders are total on an empty values map and raise no
error: `build_insert_query T {}` returns the malformed pair
`INSERT INTO T () VALUES ()` with no arguments, and `build_update_query T {} F`
returns a string beginning `UPDATE T SET ` with an empty SET clause, followed
by the WHERE clause over `F` exactly when `F` is non-empty, with only `F`'s
values as arguments. -/
theorem empty_values_spec (T : String) (F : KV) :
    build_insert_query T [] = ("INSERT INTO " ++ T ++ " () VALUES ()", []) ∧
    build_update_query T [] F =
      ("UPDATE " ++ T ++ " SET " ++
         (if F.isEmpty then "" else
           " WHERE " ++ pyJoin " AND " ((KV.keys F).map (fun k => k ++ " = %s"))),
       KV.vals F) := by
  constructor
  · rw [build_insert_query_eq T []]
    show (((("INSERT INTO " ++ T) ++ " (") ++ "" ++ ") VALUES (" ++ "" ++ ")"),
        (KV.vals ([] : KV))) = _
    rw [show (" () VALUES ()" : String) = " (" ++ ") VALUES (" ++ ")" from rfl]
    simp only [String.append_empty, String.append_assoc]
    rfl
  · rw [build_update_query_eq T [] F]
    show ((("UPDATE " ++ T) ++ " SET ") ++ "" ++ _, ([] : List Value) ++ KV.vals F) = _
    simp only [String.append_empty, List.nil_append]

/-- Claim C10: the wrapper methods compose builder and executor with a fixed
execution mode: `select` runs its built query with `ret_result = True`
(returning rows), while `insert`, `update` and `delete` run theirs with
`ret_result = False` (returning the affected-row count). -/
theorem wrappers_compose (db : Conn) (T : String) (V F : KV) :
    select db T F =
      execute_query db (build_select_query T F).1 (build_select_query T F).2 true ∧
    insert db T V =
      execute_query db (build_insert_query T V).1 (build_insert_query T V).2 false ∧
    update db T V F =
      execute_query db (build_update_query T V F).1 (build_update_query T V F).2 false ∧
    delete db T F =
      execute_query db (build_delete_query T F).1 (build_delete_query T F).2 false :=
  ⟨rfl, rfl, rfl, rfl⟩

end Db
